import Mathlib

/-!
# Verification of the go-yggdrasil client library

Shallow embedding of the `yggdrasil` Go package (files `src/yggdrasil.go` and
`src/unnamed/part_000`).  The two files define the same package; every
declaration is semantically identical between them except `Client.Validate`,
whose 403 branch in `src/unnamed/part_000` discards the decoded error
envelope.  Both variants are embedded (`Client.Validate` from
`src/yggdrasil.go`, `Client.ValidatePart000` from `src/unnamed/part_000`).

The embedding models:
* the data structures of the package (client state, request/response DTOs,
  the `Error` struct);
* the observable behaviour of `encoding/json.Unmarshal` into a pointer for
  each response type, over a JSON AST (`Json`) plus a body abstraction
  (`Body`) distinguishing empty, malformed and well-formed bodies — the
  only observations the Go code makes of the raw bytes;
* each of the five operations as a pure function from the client state and
  the transport outcome to either a nil-pointer-dereference panic or a
  returned (state, result, error) triple.

Go's `json.Unmarshal` matches object keys case-insensitively as a fallback
and accepts non-integer numbers; neither is modelled (no property below
depends on them).  `json.Marshal` of the request structs and
`http.NewRequest` with the package's constant arguments cannot fail, so the
corresponding dead error branches of the source collapse; the two fallible
transport steps (`httpClient.Do`, `ioutil.ReadAll`) are modelled by a single
`Transport.netFail` case, since the source reacts to both identically.
-/

namespace Yggdrasil

/-- Go `Agent` struct: the game that is authenticated for. -/
structure Agent where
  name : String
  version : Int
  deriving Repr, DecidableEq, Inhabited

/-- Go `Profile` struct (fields `ID`, `Name`, `Legacy`). -/
structure Profile where
  id : String
  name : String
  legacy : Bool
  deriving Repr, DecidableEq, Inhabited

/-- Go `Property` struct (fields `Name`, `Value`). -/
structure Property where
  name : String
  value : String
  deriving Repr, DecidableEq, Inhabited

/-- Go `User` struct (fields `ID`, `Properties`). -/
structure User where
  id : String
  properties : List Property
  deriving Repr, DecidableEq, Inhabited

/-- Go `Client` struct: the mutable session state
(`AccessToken`, `ClientToken`, `SelectedProfile`, `User`). -/
structure Client where
  accessToken : String
  clientToken : String
  selectedProfile : Profile
  user : User
  deriving Repr, DecidableEq, Inhabited

/-- The local (non-remote) failure causes stored in `Error.FuncError`.
`unmarshalFail` stands for a `json.Unmarshal` error, `networkFail` for a
failure of `httpClient.Do` or `ioutil.ReadAll`. -/
inductive GoErr where
  | unmarshalFail
  | networkFail
  deriving Repr, DecidableEq

/-- Go `Error` struct.  The JSON-tagged fields keep their tag names; the
untagged Go fields `StatusCode` and `FuncError` keep the Go names.
`FuncError` (Go type `error`) is `none` exactly when the Go field is nil. -/
structure Error where
  error : String
  errorMessage : String
  cause : String
  StatusCode : Int
  FuncError : Option GoErr
  deriving Repr, DecidableEq

/-- `&Error{FuncError: err}` — the local-failure error value built by every
operation: all remote fields at their zero values, status code 0. -/
def funcError (g : GoErr) : Error :=
  { error := "", errorMessage := "", cause := "", StatusCode := 0, FuncError := some g }

/-- Go `AuthenticationRequest` struct. -/
structure AuthenticationRequest where
  agent : Agent
  username : String
  password : String
  clientToken : String
  requestUser : Bool
  deriving Repr, DecidableEq

/-- Go `AuthenticationResponse` struct. -/
structure AuthenticationResponse where
  accessToken : String
  clientToken : String
  availableProfiles : List Profile
  selectedProfile : Profile
  user : User
  deriving Repr, DecidableEq, Inhabited

/-- Go `RefreshRequest` struct. -/
structure RefreshRequest where
  accessToken : String
  clientToken : String
  selectedProfile : Profile
  requestUser : Bool
  deriving Repr, DecidableEq

/-- Go `RefreshResponse` struct. -/
structure RefreshResponse where
  accessToken : String
  clientToken : String
  selectedProfile : Profile
  user : User
  deriving Repr, DecidableEq, Inhabited

/-- Go `ValidateRequest` struct. -/
structure ValidateRequest where
  accessToken : String
  clientToken : String
  deriving Repr, DecidableEq

/-- Go `SignoutRequest` struct. -/
structure SignoutRequest where
  username : String
  password : String
  deriving Repr, DecidableEq

/-- Go `InvalidateRequest` struct. -/
structure InvalidateRequest where
  accessToken : String
  clientToken : String
  deriving Repr, DecidableEq

/-! ## JSON model -/

/-- JSON values.  Numbers are modelled as integers; the package's response
structs contain no numeric fields reachable from the wire besides the
untagged `Error.StatusCode`. -/
inductive Json where
  | null
  | bool (b : Bool)
  | num (n : Int)
  | str (s : String)
  | arr (elems : List Json)
  | obj (fields : List (String × Json))

/-- An HTTP response body (`[]byte`), abstracted by the two observations the
source makes of it: `len(body) == 0`, and the result of `json.Unmarshal`.
`empty` is the zero-length body (on which `Unmarshal` fails with
"unexpected end of JSON input"), `malformed` any non-empty body that is not
valid JSON, `json j` a non-empty body parsing to the value `j`. -/
inductive Body where
  | empty
  | malformed
  | json (j : Json)

/-- Last binding of key `k` in an object's field list: Go's decoder processes
keys in order, so a later duplicate key overwrites an earlier one. -/
def lookupLast (fields : List (String × Json)) (k : String) : Option Json :=
  match fields with
  | [] => none
  | (k', v) :: rest =>
    match lookupLast rest k with
    | some w => some w
    | none => if k' = k then some v else none

/-- Decode a `string` struct field: absent or `null` leaves the zero value
`""`; a JSON string yields its value; any other JSON value is an
`Unmarshal` error. -/
def decStrField (fields : List (String × Json)) (k : String) : Except Unit String :=
  match lookupLast fields k with
  | none => .ok ""
  | some .null => .ok ""
  | some (.str s) => .ok s
  | some _ => .error ()

/-- Decode a `bool` struct field (zero value `false`). -/
def decBoolField (fields : List (String × Json)) (k : String) : Except Unit Bool :=
  match lookupLast fields k with
  | none => .ok false
  | some .null => .ok false
  | some (.bool b) => .ok b
  | some _ => .error ()

/-- Decode an `int` struct field (zero value `0`). -/
def decIntField (fields : List (String × Json)) (k : String) : Except Unit Int :=
  match lookupLast fields k with
  | none => .ok 0
  | some .null => .ok 0
  | some (.num n) => .ok n
  | some _ => .error ()

/-- Decode the untagged `FuncError error` interface field of Go's `Error`:
absent or `null` leaves nil; `Unmarshal` cannot decode any non-null JSON
value into the non-empty interface type `error`, so anything else fails. -/
def decFuncErrorField (fields : List (String × Json)) : Except Unit (Option GoErr) :=
  match lookupLast fields "FuncError" with
  | none => .ok none
  | some .null => .ok none
  | some _ => .error ()

/-- Decode a JSON value into a (non-pointer) `Profile`. -/
def decodeProfile (j : Json) : Except Unit Profile :=
  match j with
  | .obj fields => do
    let i ← decStrField fields "id"
    let n ← decStrField fields "name"
    let l ← decBoolField fields "legacy"
    .ok { id := i, name := n, legacy := l }
  | _ => .error ()

/-- Decode a `Profile` struct field: absent or `null` leaves the zero value. -/
def decProfileField (fields : List (String × Json)) (k : String) : Except Unit Profile :=
  match lookupLast fields k with
  | none => .ok default
  | some .null => .ok default
  | some j => decodeProfile j

/-- Decode one element of a `[]Profile`: JSON `null` leaves the element's
zero value; an object decodes; anything else fails. -/
def decProfileElem (j : Json) : Except Unit Profile :=
  match j with
  | .null => .ok default
  | j => decodeProfile j

/-- Decode the elements of a `[]Profile`. -/
def decProfileList (elems : List Json) : Except Unit (List Profile) :=
  match elems with
  | [] => .ok []
  | j :: rest => do
    let p ← decProfileElem j
    let ps ← decProfileList rest
    .ok (p :: ps)

/-- Decode a `[]Profile` struct field: absent or `null` gives the nil slice. -/
def decProfilesField (fields : List (String × Json)) (k : String) :
    Except Unit (List Profile) :=
  match lookupLast fields k with
  | none => .ok []
  | some .null => .ok []
  | some (.arr elems) => decProfileList elems
  | some _ => .error ()

/-- Decode a JSON value into a `Property`. -/
def decodeProperty (j : Json) : Except Unit Property :=
  match j with
  | .obj fields => do
    let n ← decStrField fields "name"
    let v ← decStrField fields "value"
    .ok { name := n, value := v }
  | _ => .error ()

/-- Decode one element of a `[]Property` (JSON `null` leaves the zero value). -/
def decPropertyElem (j : Json) : Except Unit Property :=
  match j with
  | .null => .ok default
  | j => decodeProperty j

/-- Decode the elements of a `[]Property`. -/
def decPropertyList (elems : List Json) : Except Unit (List Property) :=
  match elems with
  | [] => .ok []
  | j :: rest => do
    let p ← decPropertyElem j
    let ps ← decPropertyList rest
    .ok (p :: ps)

/-- Decode a `[]Property` struct field: absent or `null` gives the nil slice. -/
def decPropertiesField (fields : List (String × Json)) (k : String) :
    Except Unit (List Property) :=
  match lookupLast fields k with
  | none => .ok []
  | some .null => .ok []
  | some (.arr elems) => decPropertyList elems
  | some _ => .error ()

/-- Decode a JSON value into a `User`. -/
def decodeUser (j : Json) : Except Unit User :=
  match j with
  | .obj fields => do
    let i ← decStrField fields "id"
    let ps ← decPropertiesField fields "properties"
    .ok { id := i, properties := ps }
  | _ => .error ()

/-- Decode a `User` struct field: absent or `null` leaves the zero value. -/
def decUserField (fields : List (String × Json)) (k : String) : Except Unit User :=
  match lookupLast fields k with
  | none => .ok default
  | some .null => .ok default
  | some j => decodeUser j

/-- Decode a JSON value into Go's `Error` struct. -/
def decodeError (j : Json) : Except Unit Error :=
  match j with
  | .obj fields => do
    let e ← decStrField fields "error"
    let em ← decStrField fields "errorMessage"
    let c ← decStrField fields "cause"
    let sc ← decIntField fields "StatusCode"
    let fe ← decFuncErrorField fields
    .ok { error := e, errorMessage := em, cause := c, StatusCode := sc, FuncError := fe }
  | _ => .error ()

/-- Decode a JSON value into an `AuthenticationResponse`. -/
def decodeAuthenticationResponse (j : Json) : Except Unit AuthenticationResponse :=
  match j with
  | .obj fields => do
    let a ← decStrField fields "accessToken"
    let c ← decStrField fields "clientToken"
    let ap ← decProfilesField fields "availableProfiles"
    let sp ← decProfileField fields "selectedProfile"
    let u ← decUserField fields "user"
    .ok { accessToken := a, clientToken := c, availableProfiles := ap,
          selectedProfile := sp, user := u }
  | _ => .error ()

/-- Decode a JSON value into a `RefreshResponse`. -/
def decodeRefreshResponse (j : Json) : Except Unit RefreshResponse :=
  match j with
  | .obj fields => do
    let a ← decStrField fields "accessToken"
    let c ← decStrField fields "clientToken"
    let sp ← decProfileField fields "selectedProfile"
    let u ← decUserField fields "user"
    .ok { accessToken := a, clientToken := c, selectedProfile := sp, user := u }
  | _ => .error ()

/-- `json.Unmarshal(body, &ptr)` for `ptr` a nil pointer to a struct decoded
by `dec`: an empty or malformed body fails; the JSON literal `null`
succeeds leaving the pointer nil (`ok none`); any other JSON value decodes
through `dec` into a freshly allocated struct (`ok (some _)`). -/
def unmarshalPtr {α : Type} (dec : Json → Except Unit α) (body : Body) :
    Except Unit (Option α) :=
  match body with
  | .empty => .error ()
  | .malformed => .error ()
  | .json .null => .ok none
  | .json j => (dec j).map some

/-- `json.Unmarshal(body, &errorResponse)` with `errorResponse *Error`. -/
def unmarshalError (body : Body) : Except Unit (Option Error) :=
  unmarshalPtr decodeError body

/-- `json.Unmarshal(body, &authResponse)` with
`authResponse *AuthenticationResponse`. -/
def unmarshalAuthenticationResponse (body : Body) :
    Except Unit (Option AuthenticationResponse) :=
  unmarshalPtr decodeAuthenticationResponse body

/-- `json.Unmarshal(body, &refreshResponse)` with
`refreshResponse *RefreshResponse`. -/
def unmarshalRefreshResponse (body : Body) : Except Unit (Option RefreshResponse) :=
  unmarshalPtr decodeRefreshResponse body

/-! ## HTTP requests

Each operation builds its request with `http.NewRequest("POST", url, body)`
and sends it without setting any header: `http.NewRequest` initialises an
empty header map and no line of the package writes to it.  `headers` below
is therefore the list of headers the package sets on the request. -/

/-- An HTTP request as constructed by the package, with its typed body
(the struct that is JSON-marshalled into the request buffer). -/
structure HttpRequest (α : Type) where
  method : String
  url : String
  headers : List (String × String)
  body : α
  deriving Repr, DecidableEq

/-- The request built by `Client.Authenticate` (source lines 109-128 of
`src/yggdrasil.go`): `requestUser` forced true, the client's current
`ClientToken` copied in, no headers set. -/
def Client.authenticateRequest (client : Client) (username password gameName : String)
    (gameVersion : Int) : HttpRequest AuthenticationRequest :=
  { method := "POST"
    url := "https://authserver.mojang.com/authenticate"
    headers := []
    body := { agent := { name := gameName, version := gameVersion }
              username := username
              password := password
              clientToken := client.clientToken
              requestUser := true } }

/-- The request built by `Client.Refresh`. -/
def Client.refreshRequest (client : Client) : HttpRequest RefreshRequest :=
  { method := "POST"
    url := "https://authserver.mojang.com/refresh"
    headers := []
    body := { accessToken := client.accessToken
              clientToken := client.clientToken
              selectedProfile := default
              requestUser := true } }

/-- The request built by `Client.Validate`. -/
def Client.validateRequest (client : Client) : HttpRequest ValidateRequest :=
  { method := "POST"
    url := "https://authserver.mojang.com/validate"
    headers := []
    body := { accessToken := client.accessToken, clientToken := client.clientToken } }

/-- The request built by `Client.Signout` (which, like the source, never
reads the receiver). -/
def Client.signoutRequest (_client : Client) (username password : String) :
    HttpRequest SignoutRequest :=
  { method := "POST"
    url := "https://authserver.mojang.com/signout"
    headers := []
    body := { username := username, password := password } }

/-- The request built by `Client.Invalidate`. -/
def Client.invalidateRequest (client : Client) : HttpRequest InvalidateRequest :=
  { method := "POST"
    url := "https://authserver.mojang.com/invalidate"
    headers := []
    body := { accessToken := client.accessToken, clientToken := client.clientToken } }

/-! ## Operations -/

/-- A Go runtime panic reachable in the package: dereferencing the nil
pointer left by `json.Unmarshal` on a JSON `null` body. -/
inductive Panic where
  | nilDeref
  deriving Repr, DecidableEq

/-- Outcome of the HTTP exchange: `netFail` if `httpClient.Do` or
`ioutil.ReadAll` fails, otherwise the status code and body.  (`json.Marshal`
of the request structs and `http.NewRequest` with the package's constant
method/URL cannot fail, so those error branches of the source are dead.) -/
inductive Transport where
  | netFail
  | resp (status : Nat) (body : Body)

/-- `Client.Authenticate` (src/yggdrasil.go lines 108-165; identical to
src/unnamed/part_000 lines 92-148).  Returns the updated client together
with the Go return pair `(*AuthenticationResponse, *Error)`, or the panic
raised by dereferencing a nil decoded pointer. -/
def Client.Authenticate (client : Client) (username password gameName : String)
    (gameVersion : Int) (tr : Transport) :
    Except Panic (Client × Option AuthenticationResponse × Option Error) :=
  let _req := client.authenticateRequest username password gameName gameVersion
  match tr with
  | .netFail => .ok (client, none, some (funcError .networkFail))
  | .resp status body =>
    if status < 200 ∨ status > 200 then
      match unmarshalError body with
      | .error _ => .ok (client, none, some (funcError .unmarshalFail))
      | .ok none => .error .nilDeref
      | .ok (some errorResponse) =>
        .ok (client, none, some { errorResponse with StatusCode := (status : Int) })
    else
      match unmarshalAuthenticationResponse body with
      | .error _ => .ok (client, none, some (funcError .unmarshalFail))
      | .ok none => .error .nilDeref
      | .ok (some authResponse) =>
        .ok ({ client with accessToken := authResponse.accessToken
                           selectedProfile := authResponse.selectedProfile
                           user := authResponse.user },
             some authResponse, none)

/-- `Client.Refresh` (src/yggdrasil.go lines 168-221; identical to
src/unnamed/part_000 lines 150-202). -/
def Client.Refresh (client : Client) (tr : Transport) :
    Except Panic (Client × Option RefreshResponse × Option Error) :=
  let _req := client.refreshRequest
  match tr with
  | .netFail => .ok (client, none, some (funcError .networkFail))
  | .resp status body =>
    if status < 200 ∨ status > 200 then
      match unmarshalError body with
      | .error _ => .ok (client, none, some (funcError .unmarshalFail))
      | .ok none => .error .nilDeref
      | .ok (some errorResponse) =>
        .ok (client, none, some { errorResponse with StatusCode := (status : Int) })
    else
      match unmarshalRefreshResponse body with
      | .error _ => .ok (client, none, some (funcError .unmarshalFail))
      | .ok none => .error .nilDeref
      | .ok (some refreshResponse) =>
        .ok ({ client with accessToken := refreshResponse.accessToken
                           selectedProfile := refreshResponse.selectedProfile
                           user := refreshResponse.user },
             some refreshResponse, none)

/-- `Client.Validate` as in src/yggdrasil.go lines 224-268: 204 yields
`(true, nil)`; 403 decodes the body as an error envelope and returns it with
the status attached; any other status yields `(false, nil)`. -/
def Client.Validate (client : Client) (tr : Transport) :
    Except Panic (Client × Bool × Option Error) :=
  let _req := client.validateRequest
  match tr with
  | .netFail => .ok (client, false, some (funcError .networkFail))
  | .resp status body =>
    if status = 204 then
      .ok (client, true, none)
    else if status = 403 then
      match unmarshalError body with
      | .error _ => .ok (client, false, some (funcError .unmarshalFail))
      | .ok none => .error .nilDeref
      | .ok (some errorResponse) =>
        .ok (client, false, some { errorResponse with StatusCode := (status : Int) })
    else
      .ok (client, false, none)

/-- `Client.Validate` as in src/unnamed/part_000 lines 204-246: the 403
branch decodes the body, but on a successful decode discards the envelope
and returns `(false, nil)` (so the nil-pointer write of the other variant is
absent here). -/
def Client.ValidatePart000 (client : Client) (tr : Transport) :
    Except Panic (Client × Bool × Option Error) :=
  let _req := client.validateRequest
  match tr with
  | .netFail => .ok (client, false, some (funcError .networkFail))
  | .resp status body =>
    if status = 204 then
      .ok (client, true, none)
    else if status = 403 then
      match unmarshalError body with
      | .error _ => .ok (client, false, some (funcError .unmarshalFail))
      | .ok _ => .ok (client, false, none)
    else
      .ok (client, false, none)

/-- `Client.Signout` (src/yggdrasil.go lines 271-312; identical to
src/unnamed/part_000 lines 248-289): an empty body is success for any
status; a non-empty body is decoded as an error envelope and returned with
the status attached. -/
def Client.Signout (client : Client) (username password : String) (tr : Transport) :
    Except Panic (Client × Bool × Option Error) :=
  let _req := client.signoutRequest username password
  match tr with
  | .netFail => .ok (client, false, some (funcError .networkFail))
  | .resp status body =>
    match body with
    | .empty => .ok (client, true, none)
    | body =>
      match unmarshalError body with
      | .error _ => .ok (client, false, some (funcError .unmarshalFail))
      | .ok none => .error .nilDeref
      | .ok (some errorResponse) =>
        .ok (client, false, some { errorResponse with StatusCode := (status : Int) })

/-- `Client.Invalidate` (src/yggdrasil.go lines 315-356; identical to
src/unnamed/part_000 lines 291-332): returns only `*Error`; an empty body is
success for any status. -/
def Client.Invalidate (client : Client) (tr : Transport) :
    Except Panic (Client × Option Error) :=
  let _req := client.invalidateRequest
  match tr with
  | .netFail => .ok (client, some (funcError .networkFail))
  | .resp status body =>
    match body with
    | .empty => .ok (client, none)
    | body =>
      match unmarshalError body with
      | .error _ => .ok (client, some (funcError .unmarshalFail))
      | .ok none => .error .nilDeref
      | .ok (some errorResponse) =>
        .ok (client, some { errorResponse with StatusCode := (status : Int) })

/-! ## Concrete scenario values -/

/-- The stub authentication body of the end-to-end scenario:
`{"accessToken":"AT1","clientToken":"CT1","selectedProfile":{"id":"P1",
"name":"Steve","legacy":false},"user":{"id":"U1","properties":[]}}`. -/
def c6Body : Json :=
  .obj [("accessToken", .str "AT1"), ("clientToken", .str "CT1"),
        ("selectedProfile", .obj [("id", .str "P1"), ("name", .str "Steve"),
                                  ("legacy", .bool false)]),
        ("user", .obj [("id", .str "U1"), ("properties", .arr [])])]

/-- The struct `json.Unmarshal` produces from `c6Body`
(absent `availableProfiles` stays the nil slice). -/
def c6Response : AuthenticationResponse :=
  { accessToken := "AT1", clientToken := "CT1", availableProfiles := []
    selectedProfile := { id := "P1", name := "Steve", legacy := false }
    user := { id := "U1", properties := [] } }

/-- A sample client state used to instantiate universally quantified
theorems at concrete inputs. -/
def sampleClient : Client :=
  { accessToken := "sampleAccess", clientToken := "sampleClient"
    selectedProfile := default, user := default }

/-- The session state left by running the stub authentication scenario
(`c6Body` on status 200) from `sampleClient`: the three mutable fields
overwritten, the client token untouched. -/
def sampleClientAfterStub : Client :=
  { accessToken := "AT1", clientToken := "sampleClient"
    selectedProfile := { id := "P1", name := "Steve", legacy := false }
    user := { id := "U1", properties := [] } }

/-- A sample remote error envelope body. -/
def sampleErrorBody : Body :=
  .json (.obj [("error", .str "ForbiddenOperationException"),
               ("errorMessage", .str "Invalid token")])

/-- The envelope decoded from `sampleErrorBody` (before the status is
attached). -/
def sampleErrorEnvelope : Error :=
  { error := "ForbiddenOperationException", errorMessage := "Invalid token"
    cause := "", StatusCode := 0, FuncError := none }

/-! ## Theorems -/

/-- Claim C3: `Client.Validate` (src/yggdrasil.go) returns `(true, nil)` iff
the transport returns status 204; any other status returns `false`, with a
remote error envelope attached exactly when the status is 403 and the body
decodes to an envelope (a 403 body that fails to decode yields a local
failure instead, and a remote error is never attached at any other
status). -/
theorem validate_status_behaviour :
    (∀ (client : Client) (body : Body),
      Client.Validate client (.resp 204 body) = .ok (client, true, none)) ∧
    (∀ (client : Client) (status : Nat) (body : Body), status ≠ 204 → status ≠ 403 →
      Client.Validate client (.resp status body) = .ok (client, false, none)) ∧
    (∀ (client : Client) (body : Body) (e : Error), unmarshalError body = .ok (some e) →
      Client.Validate client (.resp 403 body) =
        .ok (client, false, some { e with StatusCode := 403 })) ∧
    (∀ (client : Client) (body : Body), unmarshalError body = .error () →
      Client.Validate client (.resp 403 body) =
        .ok (client, false, some (funcError .unmarshalFail))) ∧
    (∀ (client : Client) (status : Nat) (body : Body) (c' : Client) (b : Bool) (e : Error),
      Client.Validate client (.resp status body) = .ok (c', b, some e) →
      e.FuncError = none → status = 403) := by
  refine ⟨fun client body => rfl, ?_, ?_, ?_, ?_⟩
  · intro client status body h204 h403
    simp [Client.Validate, h204, h403]
  · intro client body e h
    simp [Client.Validate, h]
  · intro client body h
    simp [Client.Validate, h]
  · intro client status body c' b e h hloc
    simp only [Client.Validate] at h
    split at h
    · simp_all
    · next h403 =>
      split at h <;> simp_all [funcError]

/-- Claim C3 witness: the three return shapes at concrete inputs. -/
theorem validate_status_behaviour_witness :
    Client.Validate sampleClient (.resp 204 .empty) = .ok (sampleClient, true, none) ∧
    Client.Validate sampleClient (.resp 500 .empty) = .ok (sampleClient, false, none) ∧
    Client.Validate sampleClient (.resp 403 sampleErrorBody) =
      .ok (sampleClient, false, some { sampleErrorEnvelope with StatusCode := 403 }) ∧
    Client.Validate sampleClient (.resp 403 .malformed) =
      .ok (sampleClient, false, some (funcError .unmarshalFail)) :=
  ⟨validate_status_behaviour.1 sampleClient .empty,
   validate_status_behaviour.2.1 sampleClient 500 .empty (by decide) (by decide),
   validate_status_behaviour.2.2.1 sampleClient sampleErrorBody sampleErrorEnvelope rfl,
   validate_status_behaviour.2.2.2.1 sampleClient .malformed rfl⟩

/-- Claim C4: in the `Client.Validate` of src/unnamed/part_000, a 403
response whose body decodes to an error envelope has that envelope
discarded: the call returns `(false, nil)`. -/
theorem validatePart000_discards_decoded_error :
    ∀ (client : Client) (body : Body) (e : Error), unmarshalError body = .ok (some e) →
      Client.ValidatePart000 client (.resp 403 body) = .ok (client, false, none) := by
  intro client body e h
  simp [Client.ValidatePart000, h]

/-- Claim C4 witness: the discard at a concrete decodable envelope. -/
theorem validatePart000_discards_decoded_error_witness :
    Client.ValidatePart000 sampleClient (.resp 403 sampleErrorBody) =
      .ok (sampleClient, false, none) :=
  validatePart000_discards_decoded_error sampleClient sampleErrorBody
    sampleErrorEnvelope rfl

/-- Claim C5: `Client.Signout` and `Client.Invalidate` return success iff the
response body is empty, for every status code; a non-empty body that decodes
to an error envelope is returned with the HTTP status attached. -/
theorem signout_invalidate_body_emptiness :
    (∀ (client : Client) (u p : String) (status : Nat),
      Client.Signout client u p (.resp status .empty) = .ok (client, true, none)) ∧
    (∀ (client : Client) (status : Nat),
      Client.Invalidate client (.resp status .empty) = .ok (client, none)) ∧
    (∀ (client : Client) (u p : String) (status : Nat) (body : Body) (c' : Client)
        (e : Option Error),
      Client.Signout client u p (.resp status body) = .ok (c', true, e) → body = .empty) ∧
    (∀ (client : Client) (status : Nat) (body : Body) (c' : Client),
      Client.Invalidate client (.resp status body) = .ok (c', none) → body = .empty) ∧
    (∀ (client : Client) (u p : String) (status : Nat) (body : Body) (e : Error),
      unmarshalError body = .ok (some e) →
      Client.Signout client u p (.resp status body) =
        .ok (client, false, some { e with StatusCode := (status : Int) })) ∧
    (∀ (client : Client) (status : Nat) (body : Body) (e : Error),
      unmarshalError body = .ok (some e) →
      Client.Invalidate client (.resp status body) =
        .ok (client, some { e with StatusCode := (status : Int) })) := by
  refine ⟨fun client u p status => rfl, fun client status => rfl, ?_, ?_, ?_, ?_⟩
  · intro client u p status body c' e h
    cases body with
    | empty => rfl
    | malformed => simp [Client.Signout, unmarshalError, unmarshalPtr] at h
    | json j =>
      simp only [Client.Signout] at h
      split at h <;> simp_all
  · intro client status body c' h
    cases body with
    | empty => rfl
    | malformed => simp [Client.Invalidate, unmarshalError, unmarshalPtr] at h
    | json j =>
      simp only [Client.Invalidate] at h
      split at h <;> simp_all
  · intro client u p status body e h
    cases body with
    | empty => simp [unmarshalError, unmarshalPtr] at h
    | malformed => simp [unmarshalError, unmarshalPtr] at h
    | json j => simp [Client.Signout, h]
  · intro client status body e h
    cases body with
    | empty => simp [unmarshalError, unmarshalPtr] at h
    | malformed => simp [unmarshalError, unmarshalPtr] at h
    | json j => simp [Client.Invalidate, h]

/-- Claim C5 witness: success on empty bodies at unusual statuses, and an
attached envelope on a non-empty body. -/
theorem signout_invalidate_body_emptiness_witness :
    Client.Signout sampleClient "user" "pass" (.resp 500 .empty) =
      .ok (sampleClient, true, none) ∧
    Client.Invalidate sampleClient (.resp 999 .empty) = .ok (sampleClient, none) ∧
    Client.Signout sampleClient "user" "pass" (.resp 200 sampleErrorBody) =
      .ok (sampleClient, false, some { sampleErrorEnvelope with StatusCode := 200 }) ∧
    Client.Invalidate sampleClient (.resp 418 sampleErrorBody) =
      .ok (sampleClient, some { sampleErrorEnvelope with StatusCode := 418 }) :=
  ⟨signout_invalidate_body_emptiness.1 sampleClient "user" "pass" 500,
   signout_invalidate_body_emptiness.2.1 sampleClient 999,
   signout_invalidate_body_emptiness.2.2.2.2.1 sampleClient "user" "pass" 200
     sampleErrorBody sampleErrorEnvelope rfl,
   signout_invalidate_body_emptiness.2.2.2.2.2 sampleClient 418
     sampleErrorBody sampleErrorEnvelope rfl⟩

/-- Claim C1: whenever `Client.Authenticate` or `Client.Refresh` returns a
response (which happens exactly on status 200 with a successfully decoded
body), the client's `AccessToken`, `SelectedProfile` and `User` afterwards
equal exactly the corresponding fields of the decoded response. -/
theorem auth_refresh_success_sets_session :
    (∀ (client : Client) (u p g : String) (v : Int) (tr : Transport) (c' : Client)
        (a : AuthenticationResponse) (e : Option Error),
      Client.Authenticate client u p g v tr = .ok (c', some a, e) →
      c'.accessToken = a.accessToken ∧ c'.selectedProfile = a.selectedProfile ∧
        c'.user = a.user) ∧
    (∀ (client : Client) (tr : Transport) (c' : Client) (r : RefreshResponse)
        (e : Option Error),
      Client.Refresh client tr = .ok (c', some r, e) →
      c'.accessToken = r.accessToken ∧ c'.selectedProfile = r.selectedProfile ∧
        c'.user = r.user) := by
  constructor
  · intro client u p g v tr c' a e h
    cases tr with
    | netFail => simp [Client.Authenticate] at h
    | resp status body =>
      simp only [Client.Authenticate] at h
      split at h
      · split at h <;> simp_all
      · split at h
        · simp_all
        · simp_all
        · simp only [Except.ok.injEq, Prod.mk.injEq, Option.some.injEq] at h
          obtain ⟨rfl, rfl, rfl⟩ := h
          exact ⟨rfl, rfl, rfl⟩
  · intro client tr c' r e h
    cases tr with
    | netFail => simp [Client.Refresh] at h
    | resp status body =>
      simp only [Client.Refresh] at h
      split at h
      · split at h <;> simp_all
      · split at h
        · simp_all
        · simp_all
        · simp only [Except.ok.injEq, Prod.mk.injEq, Option.some.injEq] at h
          obtain ⟨rfl, rfl, rfl⟩ := h
          exact ⟨rfl, rfl, rfl⟩

/-- Claim C1 witness: the concrete stub authentication scenario. -/
theorem auth_refresh_success_sets_session_witness :
    Client.Authenticate sampleClient "user" "pass" "Minecraft" 1
        (.resp 200 (.json c6Body)) =
      .ok (sampleClientAfterStub, some c6Response, none) ∧
    sampleClientAfterStub.accessToken = c6Response.accessToken ∧
    sampleClientAfterStub.selectedProfile = c6Response.selectedProfile ∧
    sampleClientAfterStub.user = c6Response.user :=
  ⟨rfl, auth_refresh_success_sets_session.1 sampleClient "user" "pass" "Minecraft" 1
    (.resp 200 (.json c6Body)) sampleClientAfterStub c6Response none rfl⟩

/-- Claim C2: no error return of any operation, and no return of `Validate`,
`Signout` or `Invalidate` at all, changes any of the four session fields:
the client record returned is exactly the input one. -/
theorem session_frame :
    (∀ (client : Client) (u p g : String) (v : Int) (tr : Transport) (c' : Client)
        (r : Option AuthenticationResponse) (e : Error),
      Client.Authenticate client u p g v tr = .ok (c', r, some e) → c' = client) ∧
    (∀ (client : Client) (tr : Transport) (c' : Client) (r : Option RefreshResponse)
        (e : Error),
      Client.Refresh client tr = .ok (c', r, some e) → c' = client) ∧
    (∀ (client : Client) (tr : Transport) (c' : Client) (b : Bool) (e : Option Error),
      Client.Validate client tr = .ok (c', b, e) → c' = client) ∧
    (∀ (client : Client) (tr : Transport) (c' : Client) (b : Bool) (e : Option Error),
      Client.ValidatePart000 client tr = .ok (c', b, e) → c' = client) ∧
    (∀ (client : Client) (u p : String) (tr : Transport) (c' : Client) (b : Bool)
        (e : Option Error),
      Client.Signout client u p tr = .ok (c', b, e) → c' = client) ∧
    (∀ (client : Client) (tr : Transport) (c' : Client) (e : Option Error),
      Client.Invalidate client tr = .ok (c', e) → c' = client) := by
  refine ⟨?_, ?_, ?_, ?_, ?_, ?_⟩
  · intro client u p g v tr c' r e h
    cases tr with
    | netFail => simp_all [Client.Authenticate]
    | resp status body =>
      simp only [Client.Authenticate] at h
      split at h <;> split at h <;> simp_all
  · intro client tr c' r e h
    cases tr with
    | netFail => simp_all [Client.Refresh]
    | resp status body =>
      simp only [Client.Refresh] at h
      split at h <;> split at h <;> simp_all
  · intro client tr c' b e h
    cases tr with
    | netFail => simp_all [Client.Validate]
    | resp status body =>
      simp only [Client.Validate] at h
      split at h
      · simp_all
      · split at h
        · split at h <;> simp_all
        · simp_all
  · intro client tr c' b e h
    cases tr with
    | netFail => simp_all [Client.ValidatePart000]
    | resp status body =>
      simp only [Client.ValidatePart000] at h
      split at h
      · simp_all
      · split at h
        · split at h <;> simp_all
        · simp_all
  · intro client u p tr c' b e h
    cases tr with
    | netFail => simp_all [Client.Signout]
    | resp status body =>
      simp only [Client.Signout] at h
      split at h
      · simp_all
      · split at h <;> simp_all
  · intro client tr c' e h
    cases tr with
    | netFail => simp_all [Client.Invalidate]
    | resp status body =>
      simp only [Client.Invalidate] at h
      split at h
      · simp_all
      · split at h <;> simp_all

/-- Claim C2 witness: a concrete failing `Authenticate` (status 500) and a
concrete `Validate` call, with the frame conclusion instantiated there. -/
theorem session_frame_witness :
    Client.Authenticate sampleClient "user" "pass" "Minecraft" 1
        (.resp 500 sampleErrorBody) =
      .ok (sampleClient, none, some { sampleErrorEnvelope with StatusCode := 500 }) ∧
    (sampleClient : Client) = sampleClient ∧
    (sampleClient : Client) = sampleClient :=
  ⟨rfl,
   session_frame.1 sampleClient "user" "pass" "Minecraft" 1
     (.resp 500 sampleErrorBody) sampleClient none
     { sampleErrorEnvelope with StatusCode := 500 } rfl,
   session_frame.2.2.1 sampleClient (.resp 204 .empty) sampleClient true none rfl⟩

/-- Claim C9: no operation ever writes `ClientToken`: every non-panicking
call of each of the five operations (both `Validate` variants included)
returns a client whose `ClientToken` equals the one before the call, even on
a successful `Authenticate` or `Refresh`. -/
theorem clientToken_never_written :
    (∀ (client : Client) (u p g : String) (v : Int) (tr : Transport) (c' : Client)
        (r : Option AuthenticationResponse) (e : Option Error),
      Client.Authenticate client u p g v tr = .ok (c', r, e) →
      c'.clientToken = client.clientToken) ∧
    (∀ (client : Client) (tr : Transport) (c' : Client) (r : Option RefreshResponse)
        (e : Option Error),
      Client.Refresh client tr = .ok (c', r, e) → c'.clientToken = client.clientToken) ∧
    (∀ (client : Client) (tr : Transport) (c' : Client) (b : Bool) (e : Option Error),
      Client.Validate client tr = .ok (c', b, e) → c'.clientToken = client.clientToken) ∧
    (∀ (client : Client) (tr : Transport) (c' : Client) (b : Bool) (e : Option Error),
      Client.ValidatePart000 client tr = .ok (c', b, e) →
      c'.clientToken = client.clientToken) ∧
    (∀ (client : Client) (u p : String) (tr : Transport) (c' : Client) (b : Bool)
        (e : Option Error),
      Client.Signout client u p tr = .ok (c', b, e) →
      c'.clientToken = client.clientToken) ∧
    (∀ (client : Client) (tr : Transport) (c' : Client) (e : Option Error),
      Client.Invalidate client tr = .ok (c', e) → c'.clientToken = client.clientToken) := by
  refine ⟨?_, ?_, ?_, ?_, ?_, ?_⟩
  · intro client u p g v tr c' r e h
    cases tr with
    | netFail => simp_all [Client.Authenticate]
    | resp status body =>
      simp only [Client.Authenticate] at h
      split at h
      · split at h <;> simp_all
      · split at h
        · simp_all
        · simp_all
        · simp only [Except.ok.injEq, Prod.mk.injEq] at h
          obtain ⟨rfl, -, -⟩ := h
          rfl
  · intro client tr c' r e h
    cases tr with
    | netFail => simp_all [Client.Refresh]
    | resp status body =>
      simp only [Client.Refresh] at h
      split at h
      · split at h <;> simp_all
      · split at h
        · simp_all
        · simp_all
        · simp only [Except.ok.injEq, Prod.mk.injEq] at h
          obtain ⟨rfl, -, -⟩ := h
          rfl
  · intro client tr c' b e h
    cases tr with
    | netFail => simp_all [Client.Validate]
    | resp status body =>
      simp only [Client.Validate] at h
      split at h
      · simp_all
      · split at h
        · split at h <;> simp_all
        · simp_all
  · intro client tr c' b e h
    cases tr with
    | netFail => simp_all [Client.ValidatePart000]
    | resp status body =>
      simp only [Client.ValidatePart000] at h
      split at h
      · simp_all
      · split at h
        · split at h <;> simp_all
        · simp_all
  · intro client u p tr c' b e h
    cases tr with
    | netFail => simp_all [Client.Signout]
    | resp status body =>
      simp only [Client.Signout] at h
      split at h
      · simp_all
      · split at h <;> simp_all
  · intro client tr c' e h
    cases tr with
    | netFail => simp_all [Client.Invalidate]
    | resp status body =>
      simp only [Client.Invalidate] at h
      split at h
      · simp_all
      · split at h <;> simp_all

/-- Claim C9 witness: a fully successful `Authenticate` whose response
carries `clientToken` "CT1" still leaves the session's `ClientToken` at its
prior value. -/
theorem clientToken_never_written_witness :
    Client.Authenticate sampleClient "user" "pass" "Minecraft" 1
        (.resp 200 (.json c6Body)) =
      .ok (sampleClientAfterStub, some c6Response, none) ∧
    sampleClientAfterStub.clientToken = sampleClient.clientToken :=
  ⟨rfl, clientToken_never_written.1 sampleClient "user" "pass" "Minecraft" 1
    (.resp 200 (.json c6Body)) sampleClientAfterStub (some c6Response) none rfl⟩

/-- Claim C6 counterexample: from an initial client whose token is "X", the
stub authentication succeeds and returns the decoded struct, but the session
afterwards holds client token "X", not the "CT1" of the response — so the
claimed post-state fails for that initial state. -/
theorem authenticate_stub_counterexample :
    Client.Authenticate
        { accessToken := "old", clientToken := "X"
          selectedProfile := default, user := default }
        "user" "pass" "Minecraft" 1 (.resp 200 (.json c6Body)) =
      .ok ({ accessToken := "AT1", clientToken := "X"
             selectedProfile := { id := "P1", name := "Steve", legacy := false }
             user := { id := "U1", properties := [] } }, some c6Response, none) ∧
    ("X" : String) ≠ "CT1" :=
  ⟨rfl, by decide⟩

/-- Claim C6 (amended): from any initial client state, the stub
authentication returns the decoded struct and leaves the session holding
access token "AT1" and selected profile name "Steve" — with the client
token unchanged from before the call (it equals "CT1" only if it already
did; `Authenticate` never writes it). -/
theorem authenticate_stub_scenario :
    ∀ (client : Client) (u p g : String) (v : Int),
      Client.Authenticate client u p g v (.resp 200 (.json c6Body)) =
        .ok ({ client with
                 accessToken := "AT1",
                 selectedProfile := { id := "P1", name := "Steve", legacy := false },
                 user := { id := "U1", properties := [] } },
             some c6Response, none) := by
  intro client u p g v
  rfl

/-- Claim C7: on a nominally-successful exchange, a body that
`json.Unmarshal` rejects makes the operation return (not crash) the
local-failure error: `FuncError` holds the decode failure, the status code
stays 0, and all remote fields are empty.  For `Authenticate` and `Refresh`
the nominally-successful status is 200; `Signout` and `Invalidate` decode
any non-empty body irrespective of status. -/
theorem malformed_body_local_failure :
    (∀ (client : Client) (u p g : String) (v : Int) (body : Body),
      unmarshalAuthenticationResponse body = .error () →
      Client.Authenticate client u p g v (.resp 200 body) =
        .ok (client, none, some (funcError .unmarshalFail))) ∧
    (∀ (client : Client) (body : Body),
      unmarshalRefreshResponse body = .error () →
      Client.Refresh client (.resp 200 body) =
        .ok (client, none, some (funcError .unmarshalFail))) ∧
    (∀ (client : Client) (u p : String) (status : Nat) (body : Body),
      body ≠ .empty → unmarshalError body = .error () →
      Client.Signout client u p (.resp status body) =
        .ok (client, false, some (funcError .unmarshalFail))) ∧
    (∀ (client : Client) (status : Nat) (body : Body),
      body ≠ .empty → unmarshalError body = .error () →
      Client.Invalidate client (.resp status body) =
        .ok (client, some (funcError .unmarshalFail))) ∧
    (funcError .unmarshalFail).FuncError = some .unmarshalFail ∧
    (funcError .unmarshalFail).StatusCode = 0 ∧
    (funcError .unmarshalFail).error = "" ∧
    (funcError .unmarshalFail).errorMessage = "" ∧
    (funcError .unmarshalFail).cause = "" := by
  refine ⟨?_, ?_, ?_, ?_, rfl, rfl, rfl, rfl, rfl⟩
  · intro client u p g v body h
    simp [Client.Authenticate, h]
  · intro client body h
    simp [Client.Refresh, h]
  · intro client u p status body hne h
    cases body with
    | empty => exact absurd rfl hne
    | malformed => simp [Client.Signout, h]
    | json j => simp [Client.Signout, h]
  · intro client status body hne h
    cases body with
    | empty => exact absurd rfl hne
    | malformed => simp [Client.Invalidate, h]
    | json j => simp [Client.Invalidate, h]

/-- Claim C7 witness: a malformed body at the nominally-successful statuses
of each operation. -/
theorem malformed_body_local_failure_witness :
    Client.Authenticate sampleClient "user" "pass" "Minecraft" 1
        (.resp 200 .malformed) =
      .ok (sampleClient, none, some (funcError .unmarshalFail)) ∧
    Client.Refresh sampleClient (.resp 200 .malformed) =
      .ok (sampleClient, none, some (funcError .unmarshalFail)) ∧
    Client.Signout sampleClient "user" "pass" (.resp 200 .malformed) =
      .ok (sampleClient, false, some (funcError .unmarshalFail)) ∧
    Client.Invalidate sampleClient (.resp 200 .malformed) =
      .ok (sampleClient, some (funcError .unmarshalFail)) :=
  ⟨malformed_body_local_failure.1 sampleClient "user" "pass" "Minecraft" 1
     .malformed rfl,
   malformed_body_local_failure.2.1 sampleClient .malformed rfl,
   malformed_body_local_failure.2.2.1 sampleClient "user" "pass" 200 .malformed
     (by simp) rfl,
   malformed_body_local_failure.2.2.2.1 sampleClient 200 .malformed (by simp) rfl⟩

/-- Claim C8 counterexample: the requests the five operations issue carry no
header at all — in particular no client-identifier header is sent. -/
theorem request_headers_counterexample :
    (Client.authenticateRequest sampleClient "user" "pass" "Minecraft" 1).headers = [] ∧
    (Client.refreshRequest sampleClient).headers = [] ∧
    (Client.validateRequest sampleClient).headers = [] ∧
    (Client.signoutRequest sampleClient "user" "pass").headers = [] ∧
    (Client.invalidateRequest sampleClient).headers = [] :=
  ⟨rfl, rfl, rfl, rfl, rfl⟩

/-- Claim C8 (amended): every one of the five operations issues a POST to
its fixed endpoint with an empty header set — the package never sets a
client-identifier (or any other) header on the request. -/
theorem requests_post_without_headers :
    ∀ (client : Client) (u p g : String) (v : Int),
      ((client.authenticateRequest u p g v).method = "POST" ∧
        (client.authenticateRequest u p g v).headers = []) ∧
      ((client.refreshRequest).method = "POST" ∧
        (client.refreshRequest).headers = []) ∧
      ((client.validateRequest).method = "POST" ∧
        (client.validateRequest).headers = []) ∧
      ((client.signoutRequest u p).method = "POST" ∧
        (client.signoutRequest u p).headers = []) ∧
      ((client.invalidateRequest).method = "POST" ∧
        (client.invalidateRequest).headers = []) := by
  intro client u p g v
  exact ⟨⟨rfl, rfl⟩, ⟨rfl, rfl⟩, ⟨rfl, rfl⟩, ⟨rfl, rfl⟩, ⟨rfl, rfl⟩⟩

/-- Claim C10 evidence: on the JSON literal `null` — a body the decoder
accepts while leaving the decoded pointer nil — each operation's
envelope-handling path dereferences the nil pointer and panics instead of
returning: `Authenticate` at its 200 path, `Refresh` on a non-200 status,
`Validate` (src/yggdrasil.go) at 403, and `Signout`/`Invalidate` on the
non-empty body path.  Only the `Validate` of src/unnamed/part_000 avoids the
dereference there, returning `(false, nil)`. -/
theorem null_body_nil_dereference :
    Client.Authenticate sampleClient "user" "pass" "Minecraft" 1
        (.resp 200 (.json .null)) = .error .nilDeref ∧
    Client.Authenticate sampleClient "user" "pass" "Minecraft" 1
        (.resp 403 (.json .null)) = .error .nilDeref ∧
    Client.Refresh sampleClient (.resp 500 (.json .null)) = .error .nilDeref ∧
    Client.Validate sampleClient (.resp 403 (.json .null)) = .error .nilDeref ∧
    Client.Signout sampleClient "user" "pass" (.resp 200 (.json .null)) =
      .error .nilDeref ∧
    Client.Invalidate sampleClient (.resp 200 (.json .null)) = .error .nilDeref ∧
    Client.ValidatePart000 sampleClient (.resp 403 (.json .null)) =
      .ok (sampleClient, false, none) :=
  ⟨rfl, rfl, rfl, rfl, rfl, rfl, rfl⟩

end Yggdrasil
